import Mathlib

/-!
# Verification of the personal-site visualization pipeline

Shallow embedding of the client-side rendering layer of the repository
(`running.js`, the brewery/venue tracker script) and proofs about it.

Numbers are modelled as rationals (`ℚ`); JavaScript `Math.floor` is `Int.floor`,
`Math.round` (half-up for the finite inputs that occur here) is
`fun q => ⌊q + 1/2⌋`, `Math.max(..., 1)` over a spread list is a fold of `max`
with initial value `1`.  DOM lookups (`document.getElementById`) are modelled
as `Option` containers: `none` is an absent element, and dereferencing `none`
(JavaScript `null`) is a fault.
-/

namespace PersonalSite

/-! ## Pace formatting (`running.js`, `formatPace`) -/

/-- JavaScript `String.prototype.padStart(2, '0')`: left-pad to length 2. -/
def padStart2 (s : String) : String :=
  if s.length = 0 then "00"
  else if s.length = 1 then "0" ++ s
  else s

/-- JavaScript `Math.round` on the (finite) values that occur here:
round half away from zero upwards, i.e. `⌊q + 1/2⌋`. -/
def jsRound (q : ℚ) : ℤ := ⌊q + 1/2⌋

/-- `running.js` `formatPace`:
`mins = Math.floor(decimalMinutes)`,
`secs = Math.round((decimalMinutes - mins) * 60)`,
returns `` `${mins}:${secs.toString().padStart(2, '0')}` ``.
Since `decimalMinutes - ⌊decimalMinutes⌋ ∈ [0, 1)`, `secs` is a
non-negative integer, kept here as a `ℕ` via `Int.toNat` (lossless). -/
def formatPace (decimalMinutes : ℚ) : String :=
  let mins : ℤ := ⌊decimalMinutes⌋
  let secs : ℕ := (jsRound ((decimalMinutes - mins) * 60)).toNat
  toString mins ++ ":" ++ padStart2 (toString secs)

/-- Rendering rule stated by the spec (with the carry removed, which is what
the code actually does): `minutes:seconds` by flooring whole minutes and
rounding the fractional remainder × 60, zero-padded to 2 digits.  Written
independently of `formatPace` (padding by value comparison, not by string
length) to serve as the specification side of a refinement. -/
def formatPaceSpecNoCarry (q : ℚ) : String :=
  let m : ℤ := ⌊q⌋
  let s : ℕ := (⌊(q - m) * 60 + 1/2⌋).toNat
  toString m ++ ":" ++ (if s < 10 then "0" ++ toString s else toString s)

/-! ## Scale normalizer (`Math.max(...values, 1)`) -/

/-- The scale normalizer used by every proportional renderer:
`Math.max(...values, 1)`, i.e. the maximum of the listed values and `1`. -/
def scaleBound (vs : List ℚ) : ℚ := vs.foldr max 1

theorem one_le_scaleBound (vs : List ℚ) : 1 ≤ scaleBound vs := by
  induction vs with
  | nil => simp [scaleBound]
  | cons v vs ih =>
      simp only [scaleBound, List.foldr] at *
      exact le_max_of_le_right ih

theorem le_scaleBound {x : ℚ} {vs : List ℚ} (hx : x ∈ vs) : x ≤ scaleBound vs := by
  induction vs with
  | nil => cases hx
  | cons v vs ih =>
      simp only [scaleBound, List.foldr] at *
      rcases List.mem_cons.mp hx with h | h
      · exact h ▸ le_max_left _ _
      · exact le_max_of_le_right (ih h)

theorem scaleBound_pos (vs : List ℚ) : 0 < scaleBound vs :=
  lt_of_lt_of_le one_pos (one_le_scaleBound vs)

/-! ## Indexed iteration

JavaScript `list.forEach((item, i) => ...)` builds one output per item using
the running index; modelled by a structurally recursive indexed map. -/

/-- `mapWithIndex f i [a, b, ...] = [f i a, f (i+1) b, ...]`. -/
def mapWithIndex {α β : Type} (f : ℕ → α → β) : ℕ → List α → List β
  | _, [] => []
  | i, a :: as => f i a :: mapWithIndex f (i + 1) as

/-! ## Category color resolver (brewery script, `CATEGORY_COLORS` / `getCategoryColor`) -/

/-- The `dark` table of `CATEGORY_COLORS`, with the `|| other` fallback for
unrecognized keys. -/
def categoryColorDark (category : String) : String :=
  if category = "brewery" then "#00d4ff"
  else if category = "bar" then "#00ff88"
  else if category = "winery" then "#ff6b35"
  else if category = "distillery" then "#a855f7"
  else if category = "cidery" then "#f59e0b"
  else "#888888"

/-- The `light` table of `CATEGORY_COLORS`, with the `|| other` fallback. -/
def categoryColorLight (category : String) : String :=
  if category = "brewery" then "#0088cc"
  else if category = "bar" then "#00994d"
  else if category = "winery" then "#d45a2a"
  else if category = "distillery" then "#7c3aed"
  else if category = "cidery" then "#d97706"
  else "#555566"

/-- `getCategoryColor`: the theme mode is read at call time; modelled by the
`isDark` argument (`data-theme !== 'light'`). -/
def getCategoryColor (isDark : Bool) (category : String) : String :=
  if isDark then categoryColorDark category else categoryColorLight category

/-! ## Venue data model (brewery script) -/

/-- A record of `all_venues` / `top_by_visits` / `top_by_hours`.  Coordinates
are `Option ℚ`: `none` is a missing JSON field (JavaScript `undefined`). -/
structure Venue where
  name : String
  category : String
  lat : Option ℚ
  lng : Option ℚ
  visit_count : ℚ
  total_hours : ℚ
deriving DecidableEq

/-- JavaScript truthiness of a possibly-missing numeric field:
`undefined` and `0` are falsy, every other (finite) number is truthy. -/
def jsTruthy : Option ℚ → Bool
  | none => false
  | some q => decide (q ≠ 0)

/-- Reading a possibly-missing numeric field where the code uses its value
(only reached on truthy fields in the source). -/
def jsGetD (o : Option ℚ) : ℚ := o.getD 0

/-! ## Leaderboard renderer (brewery script, `renderLeaderboard`) -/

/-- One rendered `hbar-row` of a category-colored bar list (leaderboards and
category-breakdown bars): label, fill width percent, stagger delay in
seconds, resolved fill color, and the displayed numeric value. -/
structure ColorBarRow where
  label : String
  widthPct : ℚ
  delaySec : ℚ
  color : String
  valueShown : ℚ
deriving DecidableEq

/-- One leaderboard row (`renderLeaderboard`'s `top.forEach` body):
width `venue[valueKey] / maxVal * 100`%, delay `i * 0.08`s, category color. -/
def leaderRowOf (isDark : Bool) (maxVal : ℚ) (key : Venue → ℚ) (i : ℕ)
    (venue : Venue) : ColorBarRow :=
  { label := venue.name
    widthPct := key venue / maxVal * 100
    delaySec := i * (8 / 100)
    color := getCategoryColor isDark venue.category
    valueShown := key venue }

/-- `renderLeaderboard` body: `top = items.slice(0, 10)`,
`maxVal = Math.max(...top.map(v => v[valueKey]), 1)`, then one row per
element of `top` in order. -/
def renderLeaderboardRows (isDark : Bool) (items : List Venue)
    (key : Venue → ℚ) : List ColorBarRow :=
  let top := items.take 10
  let maxVal := scaleBound (top.map key)
  mapWithIndex (leaderRowOf isDark maxVal key) 0 top

/-- The proportional bound used by `renderLeaderboard`: computed over the
truncated `top` list only. -/
def leaderboardBound (items : List Venue) (key : Venue → ℚ) : ℚ :=
  scaleBound ((items.take 10).map key)

/-! ## Category breakdown bars (brewery script, `renderCategoryBars`) -/

/-- A `category_breakdown` record. -/
structure CatCount where
  category : String
  count : ℚ
deriving DecidableEq

/-- `renderCategoryBars` rows: width `count / maxCount * 100`%, delay
`i * 0.1`s, category color. -/
def renderCategoryBarRows (isDark : Bool) (breakdown : List CatCount) :
    List ColorBarRow :=
  let maxCount := scaleBound (breakdown.map (·.count))
  mapWithIndex
    (fun i b =>
      { label := b.category
        widthPct := b.count / maxCount * 100
        delaySec := i * (1 / 10)
        color := getCategoryColor isDark b.category
        valueShown := b.count })
    0 breakdown

/-! ## Weekly mileage bar chart (`running.js`, `renderBarChart`) -/

/-- A `weekly_mileage` record. -/
structure WeekEntry where
  week : String
  miles : ℚ
deriving DecidableEq

/-- One rendered `hbar-row` of the weekly mileage chart. -/
structure HBarRow where
  label : String
  widthPct : ℚ
  delaySec : ℚ
  valueText : String
deriving DecidableEq

/-- `renderBarChart`'s `forEach` body: fill `--target-width` is
`(week.miles / maxMiles) * 100`%, delay `i * 0.1`s, value text shown only
for positive mileage (`week.miles > 0 ? week.miles : ''`). -/
def hbarRowOf (maxMiles : ℚ) (i : ℕ) (w : WeekEntry) : HBarRow :=
  { label := w.week
    widthPct := w.miles / maxMiles * 100
    delaySec := i * (1 / 10)
    valueText := if w.miles > 0 then toString w.miles else "" }

/-- `renderBarChart` body: `maxMiles = Math.max(...weeklyMileage.map(w => w.miles), 1)`,
then one row per record. -/
def renderBarChartRows (ws : List WeekEntry) : List HBarRow :=
  mapWithIndex (hbarRowOf (scaleBound (ws.map (·.miles)))) 0 ws

/-! ## Calendar heatmap (`running.js`, `renderCalendars`) -/

/-- One `days` record of a `calendars` month. -/
structure CalDay where
  date : String
  active_minutes : ℚ
  distance_mi : ℚ
  activities : List String

/-- One month of `calendars`.  The source computes the weekday of the first
day by parsing `days[0].date` into a `Date` and calling `getDay()`
(0 = Sunday); that parsed weekday is carried here as the `firstWeekday`
field of the month. -/
structure CalMonth where
  month : String
  firstWeekday : ℕ
  days : List CalDay

/-- A cell of the 7-wide calendar grid: a leading blank, or a day cell with
its `--intensity` custom value (`none` when the day has no activity). -/
inductive CalCell where
  | empty : CalCell
  | day (d : CalDay) (intensity : Option ℚ) : CalCell

/-- The day-cell builder: for `active_minutes > 0` the intensity is
`active_minutes / maxMin` floor-clamped to `0.2` (`Math.max(0.2, intensity)`). -/
def dayCellOf (maxMin : ℚ) (d : CalDay) : CalCell :=
  CalCell.day d
    (if d.active_minutes > 0 then some (max (2 / 10) (d.active_minutes / maxMin))
     else none)

/-- `running.js` lines 380–381: `dayOfWeek = firstDate.getDay()` (0 = Sunday),
then `dayOfWeek === 0 ? 6 : dayOfWeek - 1` (convert to Monday = 0). -/
def mondayIndex (jsGetDay : ℕ) : ℕ :=
  if jsGetDay = 0 then 6 else jsGetDay - 1

/-- One month's grid: `mondayIndex` leading blank cells, then one day cell
per record in order. -/
def renderMonthGrid (firstWeekday : ℕ) (maxMin : ℚ) (days : List CalDay) :
    List CalCell :=
  List.replicate (mondayIndex firstWeekday) CalCell.empty
    ++ days.map (dayCellOf maxMin)

/-- The number of consecutive blank cells at the head of a grid. -/
def leadingEmptyCount : List CalCell → ℕ
  | CalCell.empty :: rest => leadingEmptyCount rest + 1
  | _ => 0

/-! ## Regional projection renderer (`running.js`, `renderRegionMap`) -/

/-- A featured-routes record (the fields used by the regional map:
`start_latlng[0]` is the latitude, `start_latlng[1]` the longitude). -/
structure RouteEntry where
  city : String
  continent : String
  total_miles : ℚ
  total_runs : ℕ
  startLat : ℚ
  startLng : ℚ
deriving DecidableEq

/-- `Math.max(...)` over a spread non-empty list (the `[]` case never occurs
in the guarded call sites: `renderRegionMap` returns before this on empty
region data). -/
def listMax : List ℚ → ℚ
  | [] => 0
  | x :: xs => xs.foldl max x

/-- `Math.min(...)` over a spread non-empty list. -/
def listMin : List ℚ → ℚ
  | [] => 0
  | x :: xs => xs.foldl min x

/-- Longitude span of a region subset: `Math.max(...lngs) - Math.min(...lngs)`. -/
def lngSpan (rs : List RouteEntry) : ℚ :=
  listMax (rs.map (·.startLng)) - listMin (rs.map (·.startLng))

/-- Latitude span of a region subset. -/
def latSpan (rs : List RouteEntry) : ℚ :=
  listMax (rs.map (·.startLat)) - listMin (rs.map (·.startLat))

/-- `running.js` line 717: `padLng = Math.max((Math.max(...lngs) - Math.min(...lngs)) * 0.2, 4)`. -/
def padLng (rs : List RouteEntry) : ℚ := max (lngSpan rs * (1 / 5)) 4

/-- `running.js` line 718: `padLat = Math.max((Math.max(...lats) - Math.min(...lats)) * 0.2, 4)`. -/
def padLat (rs : List RouteEntry) : ℚ := max (latSpan rs * (1 / 5)) 4

/-! ## Venue map renderer (brewery script, `renderVenueMap`) -/

/-- A circular marker placed on the venue map: position, interpolated pixel
radius, and category fill color. -/
structure Marker where
  lat : ℚ
  lng : ℚ
  radius : ℚ
  fillColor : String
deriving DecidableEq

/-- Coordinate validity as the source tests it:
`if (!venue.lat || !venue.lng) return;` — truthiness of both fields. -/
def venueCoordValid (v : Venue) : Bool :=
  jsTruthy v.lat && jsTruthy v.lng

/-- `maxVisits = Math.max(...brewData.all_venues.map(v => v.visit_count), 1)`
(over the whole collection, valid coordinates or not). -/
def venueMaxVisits (venues : List Venue) : ℚ :=
  scaleBound (venues.map (·.visit_count))

/-- The marker built for a coordinate-valid venue:
`radius = 6 + (venue.visit_count / maxVisits) * 14`, category fill color. -/
def markerOf (isDark : Bool) (maxVisits : ℚ) (v : Venue) : Marker :=
  { lat := jsGetD v.lat
    lng := jsGetD v.lng
    radius := 6 + v.visit_count / maxVisits * 14
    fillColor := getCategoryColor isDark v.category }

/-- Per-venue marker step of the `all_venues.forEach` loop: skip (no marker)
when either coordinate is falsy. -/
def markerContribution (isDark : Bool) (maxVisits : ℚ) (v : Venue) :
    Option Marker :=
  if venueCoordValid v then some (markerOf isDark maxVisits v) else none

/-- Per-venue contribution to the `bounds` array (`bounds.push(latlng)`),
pushed only for coordinate-valid venues. -/
def boundsContribution (v : Venue) : Option (ℚ × ℚ) :=
  if venueCoordValid v then some (jsGetD v.lat, jsGetD v.lng) else none

/-- The observable output of one `renderVenueMap` call: the placed markers
and the bounds the viewport was fitted to (`none` when
`bounds.length > 0` failed and `fitBounds` was skipped). -/
structure VenueMapRender where
  markers : List Marker
  fitted : Option (List (ℚ × ℚ))
deriving DecidableEq

/-- `renderVenueMap` body: returns early (`none`: no map is constructed) on
missing/empty data; otherwise places one marker per coordinate-valid venue
and fits the viewport only when at least one point was plotted. -/
def renderVenueMap (isDark : Bool) (venues : List Venue) :
    Option VenueMapRender :=
  if venues.isEmpty then none
  else
    let maxVisits := venueMaxVisits venues
    let markers := venues.filterMap (markerContribution isDark maxVisits)
    let bounds := venues.filterMap boundsContribution
    some { markers := markers
           fitted := if bounds.length > 0 then some bounds else none }

/-- The markers placed by a `renderVenueMap` call (none when the early data
guard returned). -/
def placedMarkers (isDark : Bool) (venues : List Venue) : List Marker :=
  match renderVenueMap isDark venues with
  | none => []
  | some r => r.markers

/-- The viewport-fit bounds of a `renderVenueMap` call, `none` when fitting
was skipped (either the early data guard returned or zero points were
plotted). -/
def fittedBounds (isDark : Bool) (venues : List Venue) :
    Option (List (ℚ × ℚ)) :=
  match renderVenueMap isDark venues with
  | none => none
  | some r => r.fitted

/-! ## Container handling (missing-DOM-element behavior)

`document.getElementById` is modelled as an `Option Unit` container argument:
`none` is an absent element.  A renderer that guards (`if (!container)
return;`) no-ops; a renderer that dereferences the container without a guard
(`container.innerHTML = ''`) faults with a `TypeError` when it is `null`. -/

/-- Outcome of invoking a renderer: silent no-op, rendered output, or a
thrown fault. -/
inductive RenderOutcome (α : Type) where
  | noop : RenderOutcome α
  | rendered (out : α) : RenderOutcome α
  | fault (message : String) : RenderOutcome α

/-- Brewery script `renderCategoryBars`: `if (!container) return;` guard,
then renders. -/
def renderCategoryBarsOn (isDark : Bool) (container : Option Unit)
    (breakdown : List CatCount) : RenderOutcome (List ColorBarRow) :=
  match container with
  | none => RenderOutcome.noop
  | some _ => RenderOutcome.rendered (renderCategoryBarRows isDark breakdown)

/-- Brewery script `renderLeaderboard`: `if (!container) return;` guard,
then renders. -/
def renderLeaderboardOn (isDark : Bool) (container : Option Unit)
    (items : List Venue) (key : Venue → ℚ) :
    RenderOutcome (List ColorBarRow) :=
  match container with
  | none => RenderOutcome.noop
  | some _ => RenderOutcome.rendered (renderLeaderboardRows isDark items key)

/-- Brewery script `renderVenueMap`: early return on missing data, then
`if (!mapEl) return;` guard. -/
def renderVenueMapOn (isDark : Bool) (container : Option Unit)
    (venues : List Venue) : RenderOutcome VenueMapRender :=
  match renderVenueMap isDark venues with
  | none => RenderOutcome.noop
  | some r =>
      match container with
      | none => RenderOutcome.noop
      | some _ => RenderOutcome.rendered r

/-- `running.js` `renderCalendars`: no container guard — the first statement
is `container.innerHTML = ''`, which throws a `TypeError` when
`document.getElementById('calendar-dual')` returned `null`. -/
def renderCalendarsOn (container : Option Unit) (calendars : List CalMonth) :
    RenderOutcome (List (List CalCell)) :=
  match container with
  | none => RenderOutcome.fault "TypeError: container is null"
  | some _ =>
      let maxMin :=
        scaleBound ((calendars.map (·.days)).flatten.map (·.active_minutes))
      RenderOutcome.rendered
        (calendars.map (fun c => renderMonthGrid c.firstWeekday maxMin c.days))

/-- `running.js` `renderBarChart`: no container guard — the first statement
is `container.innerHTML = ''`, which throws on a `null` container. -/
def renderBarChartOn (container : Option Unit) (ws : List WeekEntry) :
    RenderOutcome (List HBarRow) :=
  match container with
  | none => RenderOutcome.fault "TypeError: container is null"
  | some _ => RenderOutcome.rendered (renderBarChartRows ws)

/-! ## Monthly visit bars (brewery script, `renderMonthlyBars`) -/

/-- A `visits_by_month` record (`month` is a `"YYYY-MM"` key). -/
structure MonthCount where
  month : String
  count : ℚ
deriving DecidableEq

/-- The `monthNames` table of `renderMonthlyBars`. -/
def monthNames : List String :=
  ["Jan", "Feb", "Mar", "Apr", "May", "Jun",
   "Jul", "Aug", "Sep", "Oct", "Nov", "Dec"]

/-- `renderMonthlyBars` label formatting for a well-formed `"YYYY-MM"` key:
`const [y, m] = item.month.split('-')` then
`` `${monthNames[parseInt(m) - 1]} '${y.slice(2)}` `` (so `"2025-01"`
becomes `"Jan '25"`). -/
def formatMonthLabel (month : String) : String :=
  let parts := month.splitOn "-"
  let y := parts.getD 0 ""
  let m := (parts.getD 1 "").toNat?.getD 0
  monthNames.getD (m - 1) "" ++ " \x27" ++ y.drop 2

/-- `renderMonthlyBars` body: `recent = visitsByMonth.slice(-12)` (the most
recent 12 records), `maxCount = Math.max(...recent.map(m => m.count), 1)`,
then one row per recent record with width `count / maxCount * 100`% and
delay `i * 0.08`s. -/
def renderMonthlyBarRows (visitsByMonth : List MonthCount) : List HBarRow :=
  let recent := visitsByMonth.drop (visitsByMonth.length - 12)
  let maxCount := scaleBound (recent.map (·.count))
  mapWithIndex
    (fun i m =>
      { label := formatMonthLabel m.month
        widthPct := m.count / maxCount * 100
        delaySec := i * (8 / 100)
        valueText := toString m.count })
    0 recent

/-- Brewery script `renderMonthlyBars`: `if (!container) return;` guard,
then renders. -/
def renderMonthlyBarsOn (container : Option Unit)
    (visitsByMonth : List MonthCount) : RenderOutcome (List HBarRow) :=
  match container with
  | none => RenderOutcome.noop
  | some _ => RenderOutcome.rendered (renderMonthlyBarRows visitsByMonth)

/-! ## Stat card counters (`renderStatCards`, both page scripts) -/

/-- The per-stat-card configuration built by `renderStatCards` (`value`,
`decimals`, optional `separator`/`isPace` flags). -/
structure CounterCfg where
  value : ℚ
  decimals : ℕ
  separator : Bool
  isPace : Bool
deriving DecidableEq

/-- `renderStatCards` per-element step: `const el = document.getElementById(id);
if (!el) return;` — a missing stat element is skipped; a present one gets
`data-target` set and its counter animation armed toward `cfg.value`. -/
def renderStatCardOn (container : Option Unit) (cfg : CounterCfg) :
    RenderOutcome ℚ :=
  match container with
  | none => RenderOutcome.noop
  | some _ => RenderOutcome.rendered cfg.value

/-! ## Workout type breakdown (`running.js`, `renderWorkoutTypes`) -/

/-- A `workout_types` record. -/
structure TypeCount where
  type : String
  count : ℚ
deriving DecidableEq

/-- One rendered `type-row`: label, fill width percent, and the displayed
count (no stagger delay in this renderer). -/
structure TypeRow where
  label : String
  widthPct : ℚ
  valueShown : ℚ
deriving DecidableEq

/-- `renderWorkoutTypes` body: `maxCount = Math.max(...types.map(t => t.count), 1)`,
then one row per record with fill width `(t.count / maxCount) * 100`%. -/
def renderWorkoutTypeRows (types : List TypeCount) : List TypeRow :=
  let maxCount := scaleBound (types.map (·.count))
  types.map
    (fun t =>
      { label := t.type
        widthPct := t.count / maxCount * 100
        valueShown := t.count })

/-- `running.js` `renderWorkoutTypes`: no container guard — the first
statement is `container.innerHTML = ''`, which throws on a `null`
container. -/
def renderWorkoutTypesOn (container : Option Unit) (types : List TypeCount) :
    RenderOutcome (List TypeRow) :=
  match container with
  | none => RenderOutcome.fault "TypeError: container is null"
  | some _ => RenderOutcome.rendered (renderWorkoutTypeRows types)

/-! ## Route cards (`running.js`, `renderRouteCards`) -/

/-- A `recent_runs` record. -/
structure RunRecord where
  name : String
  date : String
  distance_mi : ℚ
  pace_min : ℚ
  elapsed_time_min : ℚ
  elevation_ft : ℚ
  coordinates : List (ℚ × ℚ)

/-- One rendered route card: the `map-${i}` map slot id, the run's name and
date (the locale-dependent `toLocaleDateString` rendering is elided — the
raw `date` field is carried), and the displayed stats, the pace through
`formatPace`. -/
structure RouteCard where
  mapId : String
  name : String
  date : String
  distanceMi : ℚ
  paceText : String
  elapsedMin : ℚ
  elevationFt : ℚ

/-- `renderRouteCards`'s `forEach` body for one run. -/
def routeCardOf (i : ℕ) (run : RunRecord) : RouteCard :=
  { mapId := "map-" ++ toString i
    name := run.name
    date := run.date
    distanceMi := run.distance_mi
    paceText := formatPace run.pace_min
    elapsedMin := run.elapsed_time_min
    elevationFt := run.elevation_ft }

/-- `running.js` `renderRouteCards`: no container guard — the first
statement is `container.innerHTML = ''`, which throws on a `null`
container. -/
def renderRouteCardsOn (container : Option Unit) (runs : List RunRecord) :
    RenderOutcome (List RouteCard) :=
  match container with
  | none => RenderOutcome.fault "TypeError: container is null"
  | some _ => RenderOutcome.rendered (mapWithIndex routeCardOf 0 runs)

/-! ## Goal tracker (`running.js`, `renderGoalTracker`) -/

/-- The fixed goal: 1000 miles. -/
def goalMiles : ℚ := 1000

/-- `progress = Math.min(current / goal, 1)`. -/
def goalProgress (totalDistanceMi : ℚ) : ℚ :=
  min (totalDistanceMi / goalMiles) 1

/-- `remaining = Math.max(goal - current, 0)`. -/
def goalRemaining (totalDistanceMi : ℚ) : ℚ :=
  max (goalMiles - totalDistanceMi) 0

/-- `pct = progress * 100`, the displayed completion percentage. -/
def goalPct (totalDistanceMi : ℚ) : ℚ :=
  goalProgress totalDistanceMi * 100

/-! ## Concrete sample data used by witnesses -/

/-- A sample venue with valid coordinates. -/
def demoVenue : Venue :=
  { name := "Sample Brewing", category := "brewery", lat := some 45
    lng := some (-122), visit_count := 4, total_hours := 7 }

/-- A venue sitting exactly on the equator: latitude numerically `0`. -/
def equatorVenue : Venue :=
  { name := "Equator Taproom", category := "bar", lat := some 0
    lng := some 36, visit_count := 2, total_hours := 3 }

/-- A sample calendar day. -/
def demoDay : CalDay :=
  { date := "2025-10-01", active_minutes := 45, distance_mi := 5
    activities := ["Run"] }

/-- A sample featured-route entry (one of two points one degree of
longitude apart). -/
def demoRouteA : RouteEntry :=
  { city := "Portland", continent := "na", total_miles := 120
    total_runs := 30, startLat := 45, startLng := -123 }

/-- The second sample featured-route entry, one degree of longitude east of
the first. -/
def demoRouteB : RouteEntry :=
  { city := "Vancouver", continent := "na", total_miles := 80
    total_runs := 20, startLat := 46, startLng := -122 }

/-- Sample weekly mileage data. -/
def demoWeeks : List WeekEntry :=
  [{ week := "W40", miles := 12 }, { week := "W41", miles := 20 }]

/-! ## Helper lemmas -/

/-- For the seconds range that `formatPace` can produce (`0..60`), length-based
`padStart(2, '0')` agrees with value-based two-digit padding. -/
theorem padStart2_repr_eq (n : ℕ) (hn : n ≤ 60) :
    padStart2 (toString n) = if n < 10 then "0" ++ toString n else toString n := by
  have h : n < 61 := Nat.lt_succ_of_le hn
  revert h
  revert n
  decide

/-- `formatPace` implements exactly the floor/round/pad rendering rule with
no carry of the seconds into the minutes. -/
theorem formatPace_eq_noCarrySpec (q : ℚ) : formatPace q = formatPaceSpecNoCarry q := by
  unfold formatPace formatPaceSpecNoCarry jsRound
  have h0 : (0 : ℚ) ≤ q - ⌊q⌋ := by
    have := Int.floor_le q
    linarith
  have h1 : q - ⌊q⌋ < 1 := by
    have := Int.lt_floor_add_one q
    push_cast at this ⊢
    linarith
  have hub : ⌊(q - ⌊q⌋) * 60 + 1 / 2⌋ ≤ 60 := by
    have hx : ⌊(q - ⌊q⌋) * 60 + 1 / 2⌋ < (61 : ℤ) := by
      rw [Int.floor_lt]
      push_cast
      nlinarith
    omega
  have hn : (⌊(q - ⌊q⌋) * 60 + 1 / 2⌋).toNat ≤ 60 := by omega
  simp only [padStart2_repr_eq _ hn]

/-- `formatPace 6.5 = "6:30"`. -/
theorem formatPace_six_half : formatPace (13 / 2) = "6:30" := by
  have h1 : ⌊(13 / 2 : ℚ)⌋ = 6 := by norm_num [Int.floor_eq_iff]
  have h2 : jsRound ((13 / 2 - ((6 : ℤ) : ℚ)) * 60) = 30 := by
    unfold jsRound
    norm_num [Int.floor_eq_iff]
  simp only [formatPace, h1, h2]
  decide

/-- `formatPace 0.0 = "0:00"`. -/
theorem formatPace_zero : formatPace 0 = "0:00" := by
  have h1 : ⌊(0 : ℚ)⌋ = 0 := by norm_num
  have h2 : jsRound ((0 - ((0 : ℤ) : ℚ)) * 60) = 0 := by
    unfold jsRound
    norm_num [Int.floor_eq_iff]
  simp only [formatPace, h1, h2]
  decide

/-- `formatPace 10.999 = "10:60"`: the rounded seconds reach `60` and are
printed as-is, with no carry into the minutes. -/
theorem formatPace_ten999 : formatPace (10999 / 1000) = "10:60" := by
  have h1 : ⌊(10999 / 1000 : ℚ)⌋ = 10 := by norm_num [Int.floor_eq_iff]
  have h2 : jsRound ((10999 / 1000 - ((10 : ℤ) : ℚ)) * 60) = 60 := by
    unfold jsRound
    norm_num [Int.floor_eq_iff]
  simp only [formatPace, h1, h2]
  decide

/-- `mapWithIndex` preserves length. -/
theorem mapWithIndex_length {α β : Type} (f : ℕ → α → β) :
    ∀ (i : ℕ) (l : List α), (mapWithIndex f i l).length = l.length := by
  intro i l
  induction l generalizing i with
  | nil => rfl
  | cons a as ih => simp [mapWithIndex, ih]

/-- Projecting an index-independent component out of `mapWithIndex` is a
plain `map`. -/
theorem mapWithIndex_map {α β γ : Type} (f : ℕ → α → β) (g : β → γ)
    (g0 : α → γ) (h : ∀ i a, g (f i a) = g0 a) :
    ∀ (i : ℕ) (l : List α), (mapWithIndex f i l).map g = l.map g0 := by
  intro i l
  induction l generalizing i with
  | nil => rfl
  | cons a as ih => simp [mapWithIndex, h, ih]

/-- Leading blanks of `k` empty cells followed by a blank-free tail. -/
theorem leadingEmptyCount_replicate_append (k : ℕ) (l : List CalCell)
    (hl : leadingEmptyCount l = 0) :
    leadingEmptyCount (List.replicate k CalCell.empty ++ l) = k := by
  induction k with
  | zero => simpa using hl
  | succ n ih => simp [List.replicate_succ, leadingEmptyCount, ih]

/-- A list of day cells has no leading blank. -/
theorem leadingEmptyCount_mapDay (maxMin : ℚ) (days : List CalDay) :
    leadingEmptyCount (days.map (dayCellOf maxMin)) = 0 := by
  cases days with
  | nil => rfl
  | cons d ds => rfl

/-! ## Claim theorems -/

/-- Claim C1, amended (the code never carries the rounded seconds into the
minutes): for every decimal-minutes value, `formatPace` renders
`minutes:seconds` by flooring whole minutes and rounding the fractional
remainder × 60 zero-padded to 2 digits, with no carry, so
`formatPace 6.5 = "6:30"`, `formatPace 0.0 = "0:00"`, and
`formatPace 10.999 = "10:60"`. -/
theorem claim_C1_formatPace_amended :
    (∀ q : ℚ, formatPace q = formatPaceSpecNoCarry q)
    ∧ formatPace (13 / 2) = "6:30"
    ∧ formatPace 0 = "0:00"
    ∧ formatPace (10999 / 1000) = "10:60" :=
  ⟨formatPace_eq_noCarrySpec, formatPace_six_half, formatPace_zero,
   formatPace_ten999⟩

/-- Claim C1, counterexample: at input `10.999` the formatter yields
`"10:60"`, not the claimed `"11:00"` — rounding does not carry into the
minutes. -/
theorem claim_C1_counterexample :
    formatPace (10999 / 1000) = "10:60"
    ∧ formatPace (10999 / 1000) ≠ "11:00" := by
  refine ⟨formatPace_ten999, ?_⟩
  rw [formatPace_ten999]
  decide

/-- Claim C2, counterexample: `renderCalendars` of `running.js` does not
guard its container — with the `calendar-dual` element absent it
dereferences `null` and faults instead of no-opping, for any input data
(here the concrete empty calendar list). -/
theorem claim_C2_counterexample :
    renderCalendarsOn none [] = RenderOutcome.fault "TypeError: container is null" :=
  rfl

/-- Claim C2, amended: the brewery-script renderers (`renderCategoryBars`,
`renderMonthlyBars`, `renderLeaderboard`, `renderVenueMap`) and the
per-element stat-card renderer (`renderStatCards`, both scripts) no-op on
a missing container, but the `running.js` chart renderers
(`renderCalendars`, `renderBarChart`, `renderWorkoutTypes`,
`renderRouteCards`) have no guard and fault on a missing container, for
all input data. -/
theorem claim_C2_amended :
    (∀ (isDark : Bool) (breakdown : List CatCount),
        renderCategoryBarsOn isDark none breakdown = RenderOutcome.noop)
    ∧ (∀ visitsByMonth : List MonthCount,
        renderMonthlyBarsOn none visitsByMonth = RenderOutcome.noop)
    ∧ (∀ (isDark : Bool) (items : List Venue) (key : Venue → ℚ),
        renderLeaderboardOn isDark none items key = RenderOutcome.noop)
    ∧ (∀ (isDark : Bool) (venues : List Venue),
        renderVenueMapOn isDark none venues = RenderOutcome.noop)
    ∧ (∀ cfg : CounterCfg, renderStatCardOn none cfg = RenderOutcome.noop)
    ∧ (∀ calendars : List CalMonth,
        renderCalendarsOn none calendars
          = RenderOutcome.fault "TypeError: container is null")
    ∧ (∀ ws : List WeekEntry,
        renderBarChartOn none ws
          = RenderOutcome.fault "TypeError: container is null")
    ∧ (∀ types : List TypeCount,
        renderWorkoutTypesOn none types
          = RenderOutcome.fault "TypeError: container is null")
    ∧ (∀ runs : List RunRecord,
        renderRouteCardsOn none runs
          = RenderOutcome.fault "TypeError: container is null") := by
  refine ⟨fun _ _ => rfl, fun _ => rfl, fun _ _ _ => rfl, ?_, fun _ => rfl,
    fun _ => rfl, fun _ => rfl, fun _ => rfl, fun _ => rfl⟩
  intro isDark venues
  unfold renderVenueMapOn
  cases renderVenueMap isDark venues <;> rfl

/-- Claim C3: for every non-empty sequence of magnitudes, the scale
normalizer's bound is at least `1` and at least every element, so no
proportional division divides by zero. -/
theorem claim_C3_scaleBound (vs : List ℚ) (_hne : vs ≠ []) :
    1 ≤ scaleBound vs ∧ ∀ x ∈ vs, x ≤ scaleBound vs :=
  ⟨one_le_scaleBound vs, fun _ hx => le_scaleBound hx⟩

/-- Claim C3 witness: the all-zero batch `[0, 0, 0]`. -/
theorem claim_C3_witness :
    (([0, 0, 0] : List ℚ) ≠ [])
    ∧ (1 ≤ scaleBound [0, 0, 0]
        ∧ ∀ x ∈ ([0, 0, 0] : List ℚ), x ≤ scaleBound [0, 0, 0]) :=
  ⟨by simp, claim_C3_scaleBound [0, 0, 0] (by simp)⟩

/-- Claim C4: the leaderboard renders exactly the first 10 records in
caller-supplied order, its scaling bound is computed over those first 10
only, and the whole rendering is insensitive to every record past the
tenth; with 25 input records exactly 10 rows are rendered. -/
theorem claim_C4_leaderboard (isDark : Bool) (items : List Venue)
    (key : Venue → ℚ) :
    ((renderLeaderboardRows isDark items key).map (fun r => r.label)
        = (items.take 10).map (fun v => v.name))
    ∧ leaderboardBound items key = scaleBound ((items.take 10).map key)
    ∧ (items.length = 25 →
        (renderLeaderboardRows isDark items key).length = 10)
    ∧ (∀ items2 : List Venue, items2.take 10 = items.take 10 →
        renderLeaderboardRows isDark items2 key
            = renderLeaderboardRows isDark items key
        ∧ leaderboardBound items2 key = leaderboardBound items key) := by
  refine ⟨?_, rfl, ?_, ?_⟩
  · show (mapWithIndex
        (leaderRowOf isDark (scaleBound ((items.take 10).map key)) key) 0
        (items.take 10)).map (fun r => r.label)
      = (items.take 10).map (fun v => v.name)
    exact mapWithIndex_map
      (leaderRowOf isDark (scaleBound ((items.take 10).map key)) key)
      (fun r => r.label) (fun v => v.name) (fun i v => rfl) 0 (items.take 10)
  · intro h25
    unfold renderLeaderboardRows
    rw [mapWithIndex_length]
    simp [h25]
  · intro items2 h
    unfold renderLeaderboardRows leaderboardBound
    rw [h]
    exact ⟨rfl, rfl⟩

/-- Claim C4 witness: a 25-record input renders exactly 10 rows. -/
theorem claim_C4_witness :
    (List.replicate 25 demoVenue).length = 25
    ∧ (renderLeaderboardRows true (List.replicate 25 demoVenue)
        Venue.visit_count).length = 10 :=
  ⟨by simp,
   (claim_C4_leaderboard true (List.replicate 25 demoVenue)
      Venue.visit_count).2.2.1 (by simp)⟩

/-- Claim C5: for every non-empty regional subset the bounding-box padding
in each axis is `max(span * 0.2, 4)` degrees, always at least 4; for a
subset spanning exactly 1 degree of longitude, the applied longitude
padding is the floor value 4 degrees, not 0.2. -/
theorem claim_C5_regionPadding (rs : List RouteEntry) (_hne : rs ≠ []) :
    padLng rs = max (lngSpan rs * (1 / 5)) 4
    ∧ padLat rs = max (latSpan rs * (1 / 5)) 4
    ∧ 4 ≤ padLng rs ∧ 4 ≤ padLat rs
    ∧ (lngSpan rs = 1 → padLng rs = 4 ∧ padLng rs ≠ 1 / 5) := by
  refine ⟨rfl, rfl, le_max_right _ _, le_max_right _ _, ?_⟩
  intro h1
  have h4 : padLng rs = 4 := by
    unfold padLng
    rw [h1]
    rw [max_eq_right (by norm_num : (1 : ℚ) * (1 / 5) ≤ 4)]
  exact ⟨h4, by rw [h4]; norm_num⟩

/-- Claim C5 witness: two cities one degree of longitude apart get
longitude padding 4. -/
theorem claim_C5_witness :
    ([demoRouteA, demoRouteB] ≠ ([] : List RouteEntry))
    ∧ padLng [demoRouteA, demoRouteB] = 4 := by
  have hspan : lngSpan [demoRouteA, demoRouteB] = 1 := by
    simp only [lngSpan, listMax, listMin, List.map, demoRouteA, demoRouteB,
      List.foldl]
    norm_num [max_def, min_def]
  exact ⟨by simp,
    ((claim_C5_regionPadding [demoRouteA, demoRouteB] (by simp)).2.2.2.2
      hspan).1⟩

/-- Claim C6: a month whose first day has JavaScript weekday `w`
(`getDay()`, 0 = Sunday) gets exactly `(w + 6) % 7` leading blank cells
before the first day cell; in particular a month starting on a Wednesday
(`w = 3`, ISO Monday-first index 2) gets exactly 2 leading blanks. -/
theorem claim_C6_calendarOffset (w : ℕ) (hw : w < 7) (maxMin : ℚ)
    (days : List CalDay) :
    leadingEmptyCount (renderMonthGrid w maxMin days) = (w + 6) % 7
    ∧ (w = 3 → leadingEmptyCount (renderMonthGrid w maxMin days) = 2) := by
  have hcount : leadingEmptyCount (renderMonthGrid w maxMin days)
      = mondayIndex w := by
    unfold renderMonthGrid
    exact leadingEmptyCount_replicate_append _ _ (leadingEmptyCount_mapDay _ _)
  have hmod : mondayIndex w = (w + 6) % 7 := by
    unfold mondayIndex
    interval_cases w <;> rfl
  refine ⟨hcount.trans hmod, fun h3 => ?_⟩
  subst h3
  rw [hcount]
  rfl

/-- Claim C6 witness: a month starting on Wednesday (`getDay() = 3`) gets
exactly 2 leading blank cells. -/
theorem claim_C6_witness :
    3 < 7 ∧ leadingEmptyCount (renderMonthGrid 3 60 [demoDay]) = 2 :=
  ⟨by norm_num, (claim_C6_calendarOffset 3 (by norm_num) 60 [demoDay]).2 rfl⟩

/-- Claim C7: when zero venue records have valid (truthy) coordinates —
including the empty collection — the venue map places zero markers and the
viewport-fit step is skipped; the renderer returns normally. -/
theorem claim_C7_venueMapEmpty (isDark : Bool) (venues : List Venue)
    (hinv : ∀ v ∈ venues, venueCoordValid v = false) :
    placedMarkers isDark venues = [] ∧ fittedBounds isDark venues = none := by
  by_cases he : venues.isEmpty
  · simp [placedMarkers, fittedBounds, renderVenueMap, he]
  · have hm : venues.filterMap
        (markerContribution isDark (venueMaxVisits venues)) = [] := by
      rw [List.filterMap_eq_nil_iff]
      intro v hvv
      simp [markerContribution, hinv v hvv]
    have hb : venues.filterMap boundsContribution = [] := by
      rw [List.filterMap_eq_nil_iff]
      intro v hvv
      simp [boundsContribution, hinv v hvv]
    simp [placedMarkers, fittedBounds, renderVenueMap, he, hm, hb]

/-- Claim C7 witness: a one-venue collection whose only record has a falsy
latitude — no marker, no viewport fit. -/
theorem claim_C7_witness :
    (∀ v ∈ [equatorVenue], venueCoordValid v = false)
    ∧ (placedMarkers true [equatorVenue] = []
        ∧ fittedBounds true [equatorVenue] = none) := by
  have hv : ∀ v ∈ [equatorVenue], venueCoordValid v = false := by
    intro v hvv
    simp only [List.mem_singleton] at hvv
    subst hvv
    simp [venueCoordValid, jsTruthy, equatorVenue]
  exact ⟨hv, claim_C7_venueMapEmpty true [equatorVenue] hv⟩

/-- Claim C8: every weekly-mileage row's fill proportion is
`miles / bound` with the batch bound from the normalizer, it lies in
`[0, 1]` for the magnitude (non-negative) inputs, and it is monotonic in
the mileage value within a batch. -/
theorem claim_C8_barFill (ws : List WeekEntry)
    (hpos : ∀ w ∈ ws, 0 ≤ w.miles) :
    ((renderBarChartRows ws).map (fun r => r.widthPct)
        = ws.map (fun w => w.miles / scaleBound (ws.map (fun w => w.miles)) * 100))
    ∧ (∀ w ∈ ws, 0 ≤ w.miles / scaleBound (ws.map (fun w => w.miles))
        ∧ w.miles / scaleBound (ws.map (fun w => w.miles)) ≤ 1)
    ∧ (∀ w1 ∈ ws, ∀ w2 ∈ ws, w1.miles ≤ w2.miles →
        w1.miles / scaleBound (ws.map (fun w => w.miles))
          ≤ w2.miles / scaleBound (ws.map (fun w => w.miles))) := by
  have hbpos : 0 < scaleBound (ws.map (fun w => w.miles)) := scaleBound_pos _
  refine ⟨?_, ?_, ?_⟩
  · unfold renderBarChartRows
    exact mapWithIndex_map
      (hbarRowOf (scaleBound (ws.map (fun w => w.miles))))
      (fun r => r.widthPct)
      (fun w => w.miles / scaleBound (ws.map (fun w => w.miles)) * 100)
      (fun i a => rfl) 0 ws
  · intro w hw
    refine ⟨div_nonneg (hpos w hw) hbpos.le, ?_⟩
    rw [div_le_one hbpos]
    exact le_scaleBound (List.mem_map_of_mem _ hw)
  · intro w1 _h1 w2 _h2 h12
    exact div_le_div_of_nonneg_right h12 hbpos.le

/-- Claim C8 witness: a concrete two-week batch. -/
theorem claim_C8_witness :
    (∀ w ∈ demoWeeks, 0 ≤ w.miles)
    ∧ ((renderBarChartRows demoWeeks).map (fun r => r.widthPct)
        = demoWeeks.map
            (fun w => w.miles / scaleBound (demoWeeks.map (fun w => w.miles)) * 100)) := by
  have hp : ∀ w ∈ demoWeeks, 0 ≤ w.miles := by
    intro w hw
    simp only [demoWeeks, List.mem_cons, List.mem_singleton,
      List.not_mem_nil, or_false] at hw
    rcases hw with h | h <;> subst h <;> norm_num
  exact ⟨hp, (claim_C8_barFill demoWeeks hp).1⟩

/-- Claim C9: a venue whose latitude or longitude is numerically `0` is
treated exactly like a record with missing coordinates, because validity is
the truthiness of the fields: it fails the validity test, contributes no
marker and no viewport-fit point, and the whole render skips it. -/
theorem claim_C9_zeroCoordTruthiness (v : Venue)
    (hzero : v.lat = some 0 ∨ v.lng = some 0) :
    venueCoordValid v = false
    ∧ (∀ (isDark : Bool) (maxVisits : ℚ),
        markerContribution isDark maxVisits v = none)
    ∧ boundsContribution v = none
    ∧ (∀ (isDark : Bool) (vs : List Venue),
        placedMarkers isDark (v :: vs)
            = vs.filterMap (markerContribution isDark (venueMaxVisits (v :: vs)))
        ∧ (v :: vs).filterMap boundsContribution
            = vs.filterMap boundsContribution) := by
  have hvalid : venueCoordValid v = false := by
    rcases hzero with h | h <;> simp [venueCoordValid, jsTruthy, h]
  refine ⟨hvalid, ?_, ?_, ?_⟩
  · intro isDark maxVisits
    simp [markerContribution, hvalid]
  · simp [boundsContribution, hvalid]
  · intro isDark vs
    constructor
    · simp [placedMarkers, renderVenueMap, List.filterMap_cons,
        markerContribution, hvalid]
    · simp [List.filterMap_cons, boundsContribution, hvalid]

/-- Claim C9 witness: a venue on the equator (latitude exactly `0`) fails
the truthiness validity test and contributes no viewport point. -/
theorem claim_C9_witness :
    (equatorVenue.lat = some 0 ∨ equatorVenue.lng = some 0)
    ∧ venueCoordValid equatorVenue = false
    ∧ boundsContribution equatorVenue = none :=
  ⟨Or.inl rfl,
   (claim_C9_zeroCoordTruthiness equatorVenue (Or.inl rfl)).1,
   (claim_C9_zeroCoordTruthiness equatorVenue (Or.inl rfl)).2.2.1⟩

/-- Claim C10: the goal tracker computes progress `min(total / 1000, 1)`
and remaining `max(1000 - total, 0)`; the displayed percentage never
exceeds 100 and the remaining miles are never negative, and past 1000
miles they clamp to exactly 100 and 0. -/
theorem claim_C10_goalClamp (t : ℚ) :
    goalProgress t = min (t / 1000) 1
    ∧ goalRemaining t = max (1000 - t) 0
    ∧ goalPct t ≤ 100
    ∧ 0 ≤ goalRemaining t
    ∧ (1000 < t → goalPct t = 100 ∧ goalRemaining t = 0) := by
  refine ⟨rfl, rfl, ?_, le_max_right _ _, ?_⟩
  · unfold goalPct goalProgress
    have h := min_le_right (t / goalMiles) 1
    nlinarith
  · intro ht
    constructor
    · unfold goalPct goalProgress goalMiles
      rw [min_eq_right]
      · norm_num
      · rw [one_le_div (by norm_num : (0 : ℚ) < 1000)]
        linarith
    · unfold goalRemaining goalMiles
      rw [max_eq_right]
      linarith

/-- Claim C10 witness: at 1200 total miles the display clamps to 100% and
0 miles remaining. -/
theorem claim_C10_witness :
    (1000 : ℚ) < 1200 ∧ goalPct 1200 = 100 ∧ goalRemaining 1200 = 0 :=
  ⟨by norm_num, (claim_C10_goalClamp 1200).2.2.2.2 (by norm_num)⟩

end PersonalSite
